import Mathlib

/-!
Shallow embedding of `src/deadlock_parry.py` (bohdon/deadlock-parry).

The core of the program is the punch/parry timing loop of `PunchGame.start`
(lines 101-137), together with `schedule_punch`, `punch`, `reset_punch`,
`parry`, `fail_parry` and `log_results_summary`. Time values (`time.time()`
floats) are modelled as rationals, with a single `now` per loop iteration
(the tick granularity at which the specification talks about the machine).
The process-wide RNG (`random.uniform`) is modelled as a stream of unit
draws `rng : Nat -> Rat`; `random.uniform a b` is `a + (b - a) * u` with
`u` the next draw, exactly Python's definition. Python integer division
errors are modelled with `Option`; Python `round` (banker's rounding,
ties to even) is `pyRound`. Side-effecting calls (window activation,
sounds) are modelled as emitted `SideEffect` request values in call order.
-/

namespace DeadlockParry

attribute [local semireducible] Rat.mul Rat.inv Rat.add Rat.sub

/-- One entry of `PunchGame.results`: `ParryResult(success, response_time)`,
with `response_time` defaulting to 0 for failures (line 28). -/
structure ParryResult where
  success : Bool
  response_time : ℤ
deriving DecidableEq

/-- The mutable state of `PunchGame` that the timing loop touches:
configuration fields and the round-lifecycle fields (lines 38-59).
`next_punch_time = -1` is the sentinel for "no punch scheduled". -/
structure PunchGame where
  delay_min : ℚ
  delay_max : ℚ
  parry_window : ℚ
  next_punch_time : ℚ
  punch_start_time : ℚ
  is_punching : Bool
  results : List ParryResult
deriving DecidableEq

/-- Side effects requested by the state machine, in the order the Python
methods invoke them: `activate_window`, `play_sound(PUNCH/PARRY/HIT)`,
`deactivate_window`. -/
inductive SideEffect
  | activateWindow
  | punchSound
  | parrySound
  | hitSound
  | hideWindow
deriving DecidableEq

/-- `random.uniform(a, b)`: `a + (b - a) * u` where `u` is the unit draw of
the process RNG (Python's documented formula). -/
def uniform (a b u : ℚ) : ℚ := a + (b - a) * u

/-- Python 3 `round` to an integer: nearest integer, ties to even. -/
def pyRound (q : ℚ) : ℤ :=
  let f := ⌊q⌋
  let frac := q - f
  if frac < 1 / 2 then f
  else if 1 / 2 < frac then f + 1
  else if f % 2 = 0 then f else f + 1

/-- `PunchGame.__init__` (lines 38-59): default configuration, no punch
scheduled, not punching, empty results. -/
def initPunchGame : PunchGame :=
  { delay_min := 15
    delay_max := 240
    parry_window := 600
    next_punch_time := -1
    punch_start_time := -1
    is_punching := false
    results := [] }

/-- `schedule_punch` (lines 152-155): draw a delay with `random.uniform`
and set `_next_punch_time = now + delay`. -/
def schedule_punch (g : PunchGame) (now u : ℚ) : PunchGame :=
  let random_delay := uniform g.delay_min g.delay_max u
  { g with next_punch_time := now + random_delay }

/-- `punch` (lines 157-165): activate the window, play the punch sound,
start punching at the current time. -/
def punch (g : PunchGame) (now : ℚ) : PunchGame × List SideEffect :=
  ({ g with is_punching := true, punch_start_time := now },
   [SideEffect.activateWindow, SideEffect.punchSound])

/-- `reset_punch` (lines 167-171): stop punching, clear the schedule
sentinel, hide the window. -/
def reset_punch (g : PunchGame) : PunchGame × List SideEffect :=
  ({ g with is_punching := false, next_punch_time := -1 }, [SideEffect.hideWindow])

/-- `parry` (lines 173-181): record a success with the rounded elapsed
milliseconds, play the parry sound, reset. -/
def parry (g : PunchGame) (now : ℚ) : PunchGame × ParryResult × List SideEffect :=
  let time_ms := pyRound ((now - g.punch_start_time) * 1000)
  let r : ParryResult := ⟨true, time_ms⟩
  let g1 := { g with results := g.results ++ [r] }
  let gfx := reset_punch g1
  (gfx.1, r, SideEffect.parrySound :: gfx.2)

/-- `fail_parry` (lines 183-190): record a failure (response time defaults
to 0), play the hit sound, reset. -/
def fail_parry (g : PunchGame) : PunchGame × ParryResult × List SideEffect :=
  let r : ParryResult := ⟨false, 0⟩
  let g1 := { g with results := g.results ++ [r] }
  let gfx := reset_punch g1
  (gfx.1, r, SideEffect.hitSound :: gfx.2)

/-- The values logged by `log_results_summary` (lines 192-200). -/
structure Summary where
  total : ℕ
  successes : ℕ
  success_rate : ℚ
  avg_response : ℤ
deriving DecidableEq

/-- `log_results_summary` (lines 192-200). `avg_response` is
`round(statistics.fmean(response_times))` guarded by the success list being
non-empty; `success_rate = num_success / float(num_total)` is NOT guarded,
so an empty results list raises `ZeroDivisionError`, modelled as `none`. -/
def log_results_summary (results : List ParryResult) : Option Summary :=
  let successful_results := results.filter (fun r => r.success)
  let num_total := results.length
  let num_success := successful_results.length
  let avg_response : ℤ :=
    if successful_results = [] then 0
    else pyRound ((successful_results.map (fun r => (r.response_time : ℚ))).sum / num_success)
  if num_total = 0 then none
  else some ⟨num_total, num_success, (num_success : ℚ) / (num_total : ℚ), avg_response⟩

/-- First phase of a loop iteration (lines 121-123): when not punching and
no punch is scheduled, schedule one. -/
def schedulePhase (g : PunchGame) (now u : ℚ) : PunchGame :=
  if g.is_punching = false ∧ g.next_punch_time < 0 then schedule_punch g now u else g

/-- Second phase (lines 125-127): when not punching and the scheduled time
has arrived, the punch fires. -/
def firePhase (g : PunchGame) (now : ℚ) : PunchGame × List SideEffect :=
  if g.is_punching = false ∧ g.next_punch_time ≤ now then punch g now else (g, [])

/-- Third phase (lines 129-135): when punching, a parry key press resolves
the round as a success; otherwise an elapsed time at or past the parry
window resolves it as a failure. -/
def resolvePhase (g : PunchGame) (now : ℚ) (did_parry : Bool) :
    PunchGame × Option ParryResult × List SideEffect :=
  if g.is_punching = true then
    let elapsed_time_ms := (now - g.punch_start_time) * 1000
    if did_parry then
      let gfx := parry g now
      (gfx.1, some gfx.2.1, gfx.2.2)
    else if g.parry_window ≤ elapsed_time_ms then
      let gfx := fail_parry g
      (gfx.1, some gfx.2.1, gfx.2.2)
    else (g, none, [])
  else (g, none, [])

/-- Result of one loop iteration: the new state, the round outcome emitted
during the iteration (if the round resolved), and the side effects
requested, in call order. -/
structure TickOut where
  game : PunchGame
  outcome : Option ParryResult
  effects : List SideEffect
deriving DecidableEq

/-- One iteration of the `while run` loop body (lines 101-137), after input
polling has produced `did_parry`, with `now` the iteration's clock reading
and `u` the unit draw the RNG would supply to `random.uniform`. The three
phases run in source order within the same iteration; in particular a
punch that fires this iteration is immediately subject to the resolve
phase (line 129 re-tests `_is_punching` after line 127 may have set it). -/
def tick (g : PunchGame) (now : ℚ) (did_parry : Bool) (u : ℚ) : TickOut :=
  let g1 := schedulePhase g now u
  let g2fx := firePhase g1 now
  let g3fx := resolvePhase g2fx.1 now did_parry
  ⟨g3fx.1, g3fx.2.1, g2fx.2 ++ g3fx.2.2⟩

/-- The specification's round-lifecycle states. -/
inductive Phase
  | idle
  | scheduled
  | punching
deriving DecidableEq

/-- Classification of a `PunchGame` state into the specification's
`Idle` / `Scheduled` / `Punching` states: `_is_punching` marks `Punching`,
otherwise a negative `_next_punch_time` sentinel marks `Idle`. -/
def phaseOf (g : PunchGame) : Phase :=
  if g.is_punching = true then Phase.punching
  else if g.next_punch_time < 0 then Phase.idle
  else Phase.scheduled

/-- Run the loop over a finite list of `(now, did_parry)` tick inputs.
`rng` is the stream of unit draws of the process RNG and `idx` the next
unconsumed position: a draw is consumed exactly when `schedule_punch`
runs, i.e. when the state is idle at the start of the iteration. Returns
the final state and the per-tick `(outcome, side effects)` trace. -/
def runTicks (rng : ℕ → ℚ) (idx : ℕ) (g : PunchGame) :
    List (ℚ × Bool) → PunchGame × List (Option ParryResult × List SideEffect)
  | [] => (g, [])
  | t :: rest =>
      let next_idx := if g.is_punching = false ∧ g.next_punch_time < 0 then idx + 1 else idx
      let o := tick g t.1 t.2 (rng idx)
      let r := runTicks rng next_idx o.game rest
      (r.1, (o.outcome, o.effects) :: r.2)

/-- The error the specification says invalid configurations must raise.
No such type exists anywhere in the source. -/
inductive ConfigError
  | invalid
deriving DecidableEq

/-- `main` (lines 231-237): assign the three CLI integers onto the freshly
constructed game. There is no validation of any kind in `main`, in
`PunchGame.__init__`, or anywhere else in the file. -/
def mainConfigure (delay_min delay_max parry_window : ℤ) : PunchGame :=
  { initPunchGame with
      delay_min := (delay_min : ℚ)
      delay_max := (delay_max : ℚ)
      parry_window := (parry_window : ℚ) }

/-- `main` viewed through a failure channel, to make "construction fails
with a ConfigError" formally statable: since the source raises nothing on
any configuration, the faithful embedding is total success. -/
def mainConfigureE (delay_min delay_max parry_window : ℤ) :
    Except ConfigError PunchGame :=
  Except.ok (mainConfigure delay_min delay_max parry_window)

/-- The configuration of the worked scenario in the specification:
`delay_min = 1`, `delay_max = 1`, `parry_window = 500`. -/
def scenarioConfig : PunchGame :=
  { initPunchGame with delay_min := 1, delay_max := 1, parry_window := 500 }

/-- Rounding of an exact zero elapsed time is zero. -/
theorem pyRound_zero : pyRound 0 = 0 := by decide

/-- Claim C1 (counterexample): configuring the game with `delay_min = 5 >
2 = delay_max` and non-positive `parry_window = 0` does NOT fail: `main`
succeeds and stores the invalid values unchanged. No `ConfigError` is
raised anywhere in the source. -/
theorem c1_counterexample :
    mainConfigureE 5 2 0 = Except.ok (mainConfigure 5 2 0)
    ∧ mainConfigure 5 2 0 = ⟨5, 2, 0, -1, -1, false, []⟩
    ∧ (2 : ℤ) < 5 ∧ (0 : ℤ) ≤ 0 :=
  ⟨rfl, by decide, by decide, by decide⟩

/-- Claim C1 (amended): `main` performs no validation at all: every
configuration, valid or not, is silently accepted, with the three values
stored unchanged (no clamping) and no error raised. -/
theorem c1_amended (dmin dmax pw : ℤ) :
    mainConfigureE dmin dmax pw
      = Except.ok
          { initPunchGame with
              delay_min := (dmin : ℚ)
              delay_max := (dmax : ℚ)
              parry_window := (pw : ℚ) } := rfl

/-- Claim C2 (counterexample): `log_results_summary` on an empty results
list raises `ZeroDivisionError` (the `num_success / float(num_total)`
division is not guarded), modelled as `none`; it does not report
`total = 0, success_rate = 0`. -/
theorem c2_counterexample : log_results_summary [] = none := rfl

/-- Claim C2 (amended): the statistics summary is well-defined exactly
when at least one round has been recorded; with zero rounds it raises
`ZeroDivisionError`. (The program only invokes it from `parry` and
`fail_parry`, each of which first appends a result.) -/
theorem c2_amended (results : List ParryResult) :
    (log_results_summary results).isSome = true ↔ results ≠ [] := by
  cases results with
  | nil => simp [log_results_summary]
  | cons a l => simp [log_results_summary]

/-- Witness for the amended claim C2 at a one-element results list. -/
theorem c2_amended_witness :
    (log_results_summary [⟨true, 2⟩]).isSome = true :=
  (c2_amended [⟨true, 2⟩]).mpr (by decide)

/-- Claim C3: in the `Punching` state with elapsed time exactly equal to
the parry window, a tick with the parry key pressed resolves the round as
a success (the press check at line 132 runs before the timeout check at
line 134), while the same tick without the press resolves it as a
failure. -/
theorem c3_boundary_press_success (g : PunchGame) (now u : ℚ)
    (hpunch : g.is_punching = true)
    (hboundary : (now - g.punch_start_time) * 1000 = g.parry_window) :
    (tick g now true u).outcome = some ⟨true, pyRound g.parry_window⟩
    ∧ (tick g now true u).game.is_punching = false
    ∧ (tick g now false u).outcome = some ⟨false, 0⟩ := by
  simp [tick, schedulePhase, firePhase, resolvePhase, parry, fail_parry,
    reset_punch, hpunch, hboundary]

/-- Witness for claim C3: punching since time 0 with a 600 ms window,
pressed at exactly `now = 0.6`. -/
theorem c3_boundary_press_success_witness :
    ((3 / 5 - (0 : ℚ)) * 1000
        = (PunchGame.mk 15 240 600 (-1) 0 true []).parry_window)
    ∧ ((tick ⟨15, 240, 600, -1, 0, true, []⟩ (3 / 5) true 0).outcome
          = some ⟨true, pyRound (PunchGame.mk 15 240 600 (-1) 0 true []).parry_window⟩
        ∧ (tick ⟨15, 240, 600, -1, 0, true, []⟩ (3 / 5) true 0).game.is_punching = false
        ∧ (tick ⟨15, 240, 600, -1, 0, true, []⟩ (3 / 5) false 0).outcome
          = some ⟨false, 0⟩) :=
  ⟨by decide,
   c3_boundary_press_success ⟨15, 240, 600, -1, 0, true, []⟩ (3 / 5) 0 rfl (by decide)⟩

/-- Claim C4: the loop is deterministic: two runs with the same RNG draw
stream, the same stream position, the same starting state and the same
finite tick-input sequence produce identical outcome and side-effect
traces and identical final states. -/
theorem c4_deterministic (rng1 rng2 : ℕ → ℚ) (idx1 idx2 : ℕ)
    (g1 g2 : PunchGame) (ticks1 ticks2 : List (ℚ × Bool))
    (hr : rng1 = rng2) (hi : idx1 = idx2) (hg : g1 = g2) (ht : ticks1 = ticks2) :
    runTicks rng1 idx1 g1 ticks1 = runTicks rng2 idx2 g2 ticks2 := by
  subst hr; subst hi; subst hg; subst ht; rfl

/-- Witness for claim C4 on a concrete two-tick run. -/
theorem c4_deterministic_witness :
    runTicks (fun _ => 1 / 2) 0 initPunchGame [(0, false), (200, true)]
      = runTicks (fun _ => 1 / 2) 0 initPunchGame [(0, false), (200, true)] :=
  c4_deterministic _ _ _ _ _ _ _ _ rfl rfl rfl rfl

/-- Claim C6: for a valid configuration the uniformly drawn delay lies in
`[delay_min, delay_max]`, so `schedule_punch` sets the next punch time
inside `[now + delay_min, now + delay_max]`. -/
theorem c6_delay_in_range (g : PunchGame) (now u : ℚ)
    (hcfg : g.delay_min ≤ g.delay_max) (hu0 : 0 ≤ u) (hu1 : u ≤ 1) :
    (g.delay_min ≤ uniform g.delay_min g.delay_max u
      ∧ uniform g.delay_min g.delay_max u ≤ g.delay_max)
    ∧ (schedule_punch g now u).next_punch_time
        = now + uniform g.delay_min g.delay_max u
    ∧ now + g.delay_min ≤ (schedule_punch g now u).next_punch_time
    ∧ (schedule_punch g now u).next_punch_time ≤ now + g.delay_max := by
  have h1 : 0 ≤ (g.delay_max - g.delay_min) * u :=
    mul_nonneg (sub_nonneg.mpr hcfg) hu0
  have h2 : (g.delay_max - g.delay_min) * u ≤ g.delay_max - g.delay_min := by
    nlinarith
  simp only [uniform, schedule_punch]
  refine ⟨⟨by nlinarith, by nlinarith⟩, trivial, by nlinarith, by nlinarith⟩

/-- Witness for claim C6 at the default configuration with `u = 1/2`. -/
theorem c6_delay_in_range_witness :
    (initPunchGame.delay_min ≤ initPunchGame.delay_max
      ∧ (0 : ℚ) ≤ 1 / 2 ∧ (1 / 2 : ℚ) ≤ 1)
    ∧ ((initPunchGame.delay_min ≤ uniform initPunchGame.delay_min initPunchGame.delay_max (1 / 2)
        ∧ uniform initPunchGame.delay_min initPunchGame.delay_max (1 / 2) ≤ initPunchGame.delay_max)
      ∧ (schedule_punch initPunchGame 0 (1 / 2)).next_punch_time
          = 0 + uniform initPunchGame.delay_min initPunchGame.delay_max (1 / 2)
      ∧ 0 + initPunchGame.delay_min ≤ (schedule_punch initPunchGame 0 (1 / 2)).next_punch_time
      ∧ (schedule_punch initPunchGame 0 (1 / 2)).next_punch_time ≤ 0 + initPunchGame.delay_max) :=
  ⟨⟨by decide, by decide, by decide⟩,
   c6_delay_in_range initPunchGame 0 (1 / 2) (by decide) (by decide) (by decide)⟩

/-- Claim C7 (counterexample): with two successes of 1 ms and 2 ms the
summary reports an average response of 2 ms (`round(fmean([1, 2]))`),
which is not the arithmetic mean 3/2. -/
theorem c7_counterexample :
    (log_results_summary [⟨true, 1⟩, ⟨true, 2⟩]).map Summary.avg_response = some 2
    ∧ ¬ (((1 : ℚ) + 2) / 2 = 2) :=
  ⟨by decide, by decide⟩

/-- Claim C7 (amended): the reported average response equals the
arithmetic mean of the response times over the successful outcomes only,
rounded to the nearest integer (ties to even, Python `round`), and 0 when
there are no successes; appending a failed round leaves it unchanged. -/
theorem c7_amended (results : List ParryResult) (t : ℤ) (h : results ≠ []) :
    (log_results_summary results).map Summary.avg_response
      = some (if results.filter (fun r => r.success) = [] then 0
          else pyRound (((results.filter (fun r => r.success)).map
                  (fun r => (r.response_time : ℚ))).sum
                / ((results.filter (fun r => r.success)).length : ℚ)))
    ∧ (log_results_summary (results ++ [⟨false, t⟩])).map Summary.avg_response
        = (log_results_summary results).map Summary.avg_response := by
  have hlen : ¬ results.length = 0 := by simpa using h
  have hlen2 : ¬ results.length + 1 = 0 := by omega
  constructor
  · simp [log_results_summary, hlen]
  · simp [log_results_summary, hlen, hlen2, List.filter_append]

/-- Witness for the amended claim C7 at a single success of 2 ms with an
appended failure. -/
theorem c7_amended_witness :
    (([⟨true, 2⟩] : List ParryResult) ≠ [])
    ∧ ((log_results_summary [⟨true, 2⟩]).map Summary.avg_response
        = some (if ([⟨true, 2⟩] : List ParryResult).filter (fun r => r.success) = [] then 0
            else pyRound (((([⟨true, 2⟩] : List ParryResult).filter (fun r => r.success)).map
                    (fun r => (r.response_time : ℚ))).sum
                  / ((([⟨true, 2⟩] : List ParryResult).filter (fun r => r.success)).length : ℚ)))
      ∧ (log_results_summary ([⟨true, 2⟩] ++ [⟨false, 7⟩])).map Summary.avg_response
          = (log_results_summary [⟨true, 2⟩]).map Summary.avg_response) :=
  ⟨by decide, c7_amended [⟨true, 2⟩] 7 (by decide)⟩

/-- Claim C8: a parry key press during a tick in which the machine is
`Scheduled` and `now` is strictly before the fire time has no effect at
all: the state (including the scheduled fire time) is unchanged, no
outcome is emitted, and no side effect is requested. -/
theorem c8_press_while_scheduled_no_effect (g : PunchGame) (now u : ℚ)
    (hphase : phaseOf g = Phase.scheduled) (hbefore : now < g.next_punch_time) :
    tick g now true u = ⟨g, none, []⟩ := by
  unfold phaseOf at hphase
  by_cases hp : g.is_punching = true
  · simp [hp] at hphase
  · by_cases hn : g.next_punch_time < 0
    · simp [hp, hn] at hphase
    · have hnotle : ¬ g.next_punch_time ≤ now := not_le.mpr hbefore
      simp [tick, schedulePhase, firePhase, resolvePhase, hp, hn, hnotle]

/-- Witness for claim C8: scheduled to fire at 10, pressed at 5. -/
theorem c8_press_while_scheduled_no_effect_witness :
    (phaseOf ⟨15, 240, 600, 10, -1, false, []⟩ = Phase.scheduled
      ∧ (5 : ℚ) < (PunchGame.mk 15 240 600 10 (-1) false []).next_punch_time)
    ∧ tick ⟨15, 240, 600, 10, -1, false, []⟩ 5 true 0
        = ⟨⟨15, 240, 600, 10, -1, false, []⟩, none, []⟩ :=
  ⟨⟨by decide, by decide⟩,
   c8_press_while_scheduled_no_effect ⟨15, 240, 600, 10, -1, false, []⟩ 5 0
     (by decide) (by decide)⟩

/-- Claim C9: the specification's worked scenario: config
`(delay_min = 1, delay_max = 1, parry_window = 500)`; the tick at
`now = 0` schedules the punch for time 1; the tick at `now = 1` starts
the punch; the tick at `now = 1.3` with the parry key pressed emits a
success with a 300 ms response, and the summary then reports
`total = 1, successes = 1, success_rate = 1, average = 300`. -/
theorem c9_end_to_end :
    (runTicks (fun _ => 0) 0 scenarioConfig [(0, false)]).1.next_punch_time = 1
    ∧ (runTicks (fun _ => 0) 0 scenarioConfig [(0, false)]).1.is_punching = false
    ∧ (runTicks (fun _ => 0) 0 scenarioConfig [(0, false), (1, false)]).1.is_punching = true
    ∧ (runTicks (fun _ => 0) 0 scenarioConfig
          [(0, false), (1, false), (13 / 10, true)]).2.map Prod.fst
        = [none, none, some ⟨true, 300⟩]
    ∧ log_results_summary (runTicks (fun _ => 0) 0 scenarioConfig
          [(0, false), (1, false), (13 / 10, true)]).1.results
        = some ⟨1, 1, 1, 300⟩ := by decide

/-- Claim C10: a parry key press polled in the very tick in which the
punch fires (state `Scheduled`, `now` at or past the fire time) is not
discarded: the punch starts and is immediately parried within that tick,
emitting a success with response time `round(0) = 0` ms and returning to
`Idle`, with the punch and parry side effects both requested. -/
theorem c10_press_on_fire_tick (g : PunchGame) (now u : ℚ)
    (hphase : phaseOf g = Phase.scheduled) (hfire : g.next_punch_time ≤ now) :
    (tick g now true u).outcome = some ⟨true, 0⟩
    ∧ phaseOf (tick g now true u).game = Phase.idle
    ∧ (tick g now true u).game.results = g.results ++ [⟨true, 0⟩]
    ∧ (tick g now true u).effects
        = [SideEffect.activateWindow, SideEffect.punchSound,
           SideEffect.parrySound, SideEffect.hideWindow] := by
  unfold phaseOf at hphase
  by_cases hp : g.is_punching = true
  · simp [hp] at hphase
  · by_cases hn : g.next_punch_time < 0
    · simp [hp, hn] at hphase
    · simp [tick, schedulePhase, firePhase, resolvePhase, punch, parry,
        reset_punch, phaseOf, hp, hn, hfire, pyRound_zero]

/-- Witness for claim C10: scheduled to fire at 10, pressed at exactly 10. -/
theorem c10_press_on_fire_tick_witness :
    (phaseOf ⟨15, 240, 600, 10, -1, false, []⟩ = Phase.scheduled
      ∧ (PunchGame.mk 15 240 600 10 (-1) false []).next_punch_time ≤ (10 : ℚ))
    ∧ ((tick ⟨15, 240, 600, 10, -1, false, []⟩ 10 true 0).outcome = some ⟨true, 0⟩
      ∧ phaseOf (tick ⟨15, 240, 600, 10, -1, false, []⟩ 10 true 0).game = Phase.idle
      ∧ (tick ⟨15, 240, 600, 10, -1, false, []⟩ 10 true 0).game.results
          = ([] : List ParryResult) ++ [⟨true, 0⟩]
      ∧ (tick ⟨15, 240, 600, 10, -1, false, []⟩ 10 true 0).effects
          = [SideEffect.activateWindow, SideEffect.punchSound,
             SideEffect.parrySound, SideEffect.hideWindow]) :=
  ⟨⟨by decide, by decide⟩,
   c10_press_on_fire_tick ⟨15, 240, 600, 10, -1, false, []⟩ 10 0 (by decide) (by decide)⟩

/-- Claim C5: within one tick the three phases run in source order and
each performs at most one transition of the cycle
`Idle → Scheduled → Punching → Idle`, only under its triggering
condition: the schedule phase either leaves the state untouched or moves
an `Idle` state to `Scheduled`; the fire phase either does nothing or
moves a `Scheduled` state with `fire_at ≤ now` to `Punching`; the
resolve phase either does nothing (no outcome, no effects) or moves a
`Punching` state to `Idle` with an emitted outcome, and only when the key
was pressed or the elapsed time reached the parry window; and `tick` is
exactly the composition of the three phases. (Stated under a
non-negative clock and a valid non-negative delay range, which keep the
`next_punch_time = -1` idle sentinel unambiguous.) -/
theorem c5_cycle (g : PunchGame) (now u : ℚ) (pressed : Bool)
    (hnow : 0 ≤ now) (hmin : 0 ≤ g.delay_min) (hcfg : g.delay_min ≤ g.delay_max)
    (hu0 : 0 ≤ u) (hu1 : u ≤ 1) :
    (schedulePhase g now u = g
      ∨ (phaseOf g = Phase.idle ∧ phaseOf (schedulePhase g now u) = Phase.scheduled))
    ∧ (firePhase (schedulePhase g now u) now = (schedulePhase g now u, [])
      ∨ (phaseOf (schedulePhase g now u) = Phase.scheduled
         ∧ (schedulePhase g now u).next_punch_time ≤ now
         ∧ phaseOf (firePhase (schedulePhase g now u) now).1 = Phase.punching))
    ∧ (resolvePhase (firePhase (schedulePhase g now u) now).1 now pressed
          = ((firePhase (schedulePhase g now u) now).1, none, [])
      ∨ (phaseOf (firePhase (schedulePhase g now u) now).1 = Phase.punching
         ∧ (pressed = true
            ∨ (firePhase (schedulePhase g now u) now).1.parry_window
                ≤ (now - (firePhase (schedulePhase g now u) now).1.punch_start_time) * 1000)
         ∧ phaseOf (resolvePhase (firePhase (schedulePhase g now u) now).1 now pressed).1
             = Phase.idle
         ∧ (resolvePhase (firePhase (schedulePhase g now u) now).1 now pressed).2.1.isSome
             = true))
    ∧ tick g now pressed u
        = ⟨(resolvePhase (firePhase (schedulePhase g now u) now).1 now pressed).1,
           (resolvePhase (firePhase (schedulePhase g now u) now).1 now pressed).2.1,
           (firePhase (schedulePhase g now u) now).2
             ++ (resolvePhase (firePhase (schedulePhase g now u) now).1 now pressed).2.2⟩ := by
  have hdelay : 0 ≤ uniform g.delay_min g.delay_max u := by
    have := mul_nonneg (sub_nonneg.mpr hcfg) hu0
    simp only [uniform]
    nlinarith
  have hsched : ∀ h : PunchGame, h = schedulePhase g now u →
      h.is_punching = false → ¬ h.next_punch_time < 0 := by
    intro h he hp
    subst he
    unfold schedulePhase at hp ⊢
    by_cases hc : g.is_punching = false ∧ g.next_punch_time < 0
    · rw [if_pos hc]
      simp only [schedule_punch]
      push_neg
      linarith [hnow, hdelay]
    · simp only [hc, if_false] at hp ⊢
      rcases not_and_or.mp hc with h1 | h1
      · exact absurd hp h1
      · exact h1
  refine ⟨?_, ?_, ?_, rfl⟩
  · by_cases hc : g.is_punching = false ∧ g.next_punch_time < 0
    · right
      refine ⟨by simp [phaseOf, hc.1, hc.2], ?_⟩
      have h1 : (schedulePhase g now u).is_punching = false := by
        simp [schedulePhase, hc, schedule_punch, hc.1]
      have h2 := hsched (schedulePhase g now u) rfl h1
      simp [phaseOf, h1, h2]
    · left
      simp [schedulePhase, hc]
  · by_cases hf : (schedulePhase g now u).is_punching = false
        ∧ (schedulePhase g now u).next_punch_time ≤ now
    · right
      have h2 := hsched (schedulePhase g now u) rfl hf.1
      refine ⟨by simp [phaseOf, hf.1, h2], hf.2, ?_⟩
      simp [firePhase, hf, punch, phaseOf]
    · left
      simp [firePhase, hf]
  · by_cases hpp : (firePhase (schedulePhase g now u) now).1.is_punching = true
    · by_cases hguard : pressed = true
        ∨ (firePhase (schedulePhase g now u) now).1.parry_window
            ≤ (now - (firePhase (schedulePhase g now u) now).1.punch_start_time) * 1000
      · right
        refine ⟨by simp [phaseOf, hpp], hguard, ?_, ?_⟩
        · cases hb : pressed with
          | true =>
              simp [resolvePhase, hpp, hb, parry, reset_punch, phaseOf]
          | false =>
              rcases hguard with hguard | hguard
              · rw [hb] at hguard; exact absurd hguard (by simp)
              · simp [resolvePhase, hpp, hb, hguard, fail_parry, reset_punch, phaseOf]
        · cases hb : pressed with
          | true => simp [resolvePhase, hpp, hb, parry]
          | false =>
              rcases hguard with hguard | hguard
              · rw [hb] at hguard; exact absurd hguard (by simp)
              · simp [resolvePhase, hpp, hb, hguard, fail_parry]
      · left
        push_neg at hguard
        have hnp : ¬ (firePhase (schedulePhase g now u) now).1.parry_window
            ≤ (now - (firePhase (schedulePhase g now u) now).1.punch_start_time) * 1000 :=
          not_le.mpr hguard.2
        have hbp : pressed = false := by
          cases pressed
          · rfl
          · exact absurd rfl hguard.1
        simp [resolvePhase, hpp, hbp, hnp]
    · left
      simp [resolvePhase, hpp]

/-- Witness for claim C5 at the default configuration in the idle initial
state at time 0 with no key press. -/
theorem c5_cycle_witness :
    ((0 : ℚ) ≤ 0 ∧ (0 : ℚ) ≤ initPunchGame.delay_min
      ∧ initPunchGame.delay_min ≤ initPunchGame.delay_max
      ∧ (0 : ℚ) ≤ 1 / 2 ∧ (1 / 2 : ℚ) ≤ 1)
    ∧ ((schedulePhase initPunchGame 0 (1 / 2) = initPunchGame
        ∨ (phaseOf initPunchGame = Phase.idle
           ∧ phaseOf (schedulePhase initPunchGame 0 (1 / 2)) = Phase.scheduled))
      ∧ (firePhase (schedulePhase initPunchGame 0 (1 / 2)) 0
            = (schedulePhase initPunchGame 0 (1 / 2), [])
        ∨ (phaseOf (schedulePhase initPunchGame 0 (1 / 2)) = Phase.scheduled
           ∧ (schedulePhase initPunchGame 0 (1 / 2)).next_punch_time ≤ 0
           ∧ phaseOf (firePhase (schedulePhase initPunchGame 0 (1 / 2)) 0).1 = Phase.punching))
      ∧ (resolvePhase (firePhase (schedulePhase initPunchGame 0 (1 / 2)) 0).1 0 false
            = ((firePhase (schedulePhase initPunchGame 0 (1 / 2)) 0).1, none, [])
        ∨ (phaseOf (firePhase (schedulePhase initPunchGame 0 (1 / 2)) 0).1 = Phase.punching
           ∧ (false = true
              ∨ (firePhase (schedulePhase initPunchGame 0 (1 / 2)) 0).1.parry_window
                  ≤ (0 - (firePhase (schedulePhase initPunchGame 0 (1 / 2)) 0).1.punch_start_time)
                      * 1000)
           ∧ phaseOf (resolvePhase (firePhase (schedulePhase initPunchGame 0 (1 / 2)) 0).1
                 0 false).1 = Phase.idle
           ∧ (resolvePhase (firePhase (schedulePhase initPunchGame 0 (1 / 2)) 0).1
                 0 false).2.1.isSome = true))
      ∧ tick initPunchGame 0 false (1 / 2)
          = ⟨(resolvePhase (firePhase (schedulePhase initPunchGame 0 (1 / 2)) 0).1 0 false).1,
             (resolvePhase (firePhase (schedulePhase initPunchGame 0 (1 / 2)) 0).1 0 false).2.1,
             (firePhase (schedulePhase initPunchGame 0 (1 / 2)) 0).2
               ++ (resolvePhase (firePhase (schedulePhase initPunchGame 0 (1 / 2)) 0).1
                     0 false).2.2⟩) :=
  ⟨⟨by decide, by decide, by decide, by decide, by decide⟩,
   c5_cycle initPunchGame 0 (1 / 2) false (by decide) (by decide) (by decide)
     (by decide) (by decide)⟩

end DeadlockParry
